import Mathlib

/-!
Verification of the collision and boundary-response core of the
Mario-Kart-3.js repository.

The data model and the operations below are shallow embeddings of the
JavaScript source:

* `src/unnamed/part_001` — the unified variant of the collision module
  (`checkBoundaryCollision`, `calculateBounceResponse`,
  `isPositionOnTrack`, `checkMultiDirectionalCollision`), the variant the
  specification adopts as its default;
* `src/src/models/__tests__/Kart.test.js` — the per-wheel ground contact
  resolver `getGroundPosition` defined inline in that test file.

Vectors are three-component real vectors, exactly as three.js `Vector3`
(the source's numbers are its reals).  The scene's ray query
(`Raycaster.set` / `far` / `firstHitOnly` / `intersectObjects`) is the
external Spatial Query Provider of the specification: it is modelled as an
oracle that, for an origin, a direction and a maximum distance, returns
the ordered (nearest-first) list of intersections, each carrying the hit
point, the hit distance, the optional face normal and the hit object's
name.
-/

namespace MarioKart

open scoped Classical

noncomputable section

/-- Three-component real vector: the shape of a three.js `Vector3`
(position, direction or velocity). -/
structure Vec3 where
  x : ℝ
  y : ℝ
  z : ℝ

/-- `a.add b`: componentwise sum, as `Vector3.add`. -/
def Vec3.add (a b : Vec3) : Vec3 :=
  ⟨a.x + b.x, a.y + b.y, a.z + b.z⟩

/-- `a.sub b`: componentwise difference, as `Vector3.sub`. -/
def Vec3.sub (a b : Vec3) : Vec3 :=
  ⟨a.x - b.x, a.y - b.y, a.z - b.z⟩

/-- `a.smul s`: `Vector3.multiplyScalar`. -/
def Vec3.smul (a : Vec3) (s : ℝ) : Vec3 :=
  ⟨a.x * s, a.y * s, a.z * s⟩

/-- `a.neg`: `Vector3.negate`. -/
def Vec3.neg (a : Vec3) : Vec3 :=
  ⟨-a.x, -a.y, -a.z⟩

/-- `a.dot b`: `Vector3.dot`. -/
def Vec3.dot (a b : Vec3) : ℝ :=
  a.x * b.x + a.y * b.y + a.z * b.z

/-- `a.length`: `Vector3.length`, `Math.sqrt(x*x + y*y + z*z)`. -/
def Vec3.length (a : Vec3) : ℝ :=
  Real.sqrt (a.dot a)

/-- `a.normalize`: three.js `Vector3.normalize`, which divides by
`this.length() || 1` — a zero-length vector is divided by `1` and so is
left unchanged. -/
def Vec3.normalize (a : Vec3) : Vec3 :=
  a.smul (1 / (if a.length = 0 then 1 else a.length))

/-- `v.reflect n`: three.js `Vector3.reflect`,
`v − n·(2·(v·n))` — the standard reflection `v − 2(v·n)n`. -/
def Vec3.reflect (v n : Vec3) : Vec3 :=
  v.sub (n.smul (2 * v.dot n))

/-- `v.applyAxisAngleY θ`: three.js `Vector3.applyAxisAngle` specialised
to the axis `(0, 1, 0)` — the only axis the source ever uses — i.e. the
rotation by `θ` about the vertical axis. -/
def Vec3.applyAxisAngleY (a : Vec3) (θ : ℝ) : Vec3 :=
  ⟨a.x * Real.cos θ + a.z * Real.sin θ, a.y,
   a.z * Real.cos θ - a.x * Real.sin θ⟩

/-- One intersection reported by the ray query: hit point, distance along
the ray, the face normal when the geometry supplies one (`hit.face` may be
absent in three.js), and the hit object's name. -/
structure Intersection where
  point : Vec3
  distance : ℝ
  faceNormal : Option Vec3
  objName : String

/-- The scene, seen through the external Spatial Query Provider: `raycast
origin direction far` models `raycaster.set(origin, direction)`,
`raycaster.far = far`, `raycaster.firstHitOnly = true`,
`raycaster.intersectObjects(scene.children, true)` and returns the
nearest-first intersection list.  A scene containing no objects of some
name never returns an intersection carrying that name. -/
structure Scene where
  raycast : Vec3 → Vec3 → ℝ → List Intersection

/-- `name.includes(sub)` of JavaScript: `sub` occurs contiguously in
`name`. -/
def strIncludes (name sub : String) : Bool :=
  decide (sub.data <:+: name.data)

/-- The boundary-name filter of the unified variant:
`hit.object.name && (name.includes('ground') || name.includes('wall') ||
name.includes('barrier') || name.includes('block'))` (an empty name is
falsy in JavaScript). -/
def isCollisionName (name : String) : Bool :=
  !name.isEmpty &&
    (strIncludes name "ground" || strIncludes name "wall" ||
     strIncludes name "barrier" || strIncludes name "block")

/-- The record `checkBoundaryCollision` returns on a hit: the literal
`{ hit, point, normal, distance, type }` of the source. -/
structure HitRecord where
  hit : Bool
  point : Vec3
  normal : Vec3
  distance : ℝ
  type : String

/-- `checkBoundaryCollision(position, velocity, scene, lookAheadDistance)`
of `src/unnamed/part_001` (the unified variant):

* if `velocity.length() < 0.1`, return `null`;
* cast a ray from `position + (0, 0.5, 0)` along `normalize(velocity)`
  with `far = lookAheadDistance`, filter the intersections to
  boundary-named ones; on a hit return
  `{ hit: true, point, normal: face normal or negated direction,
     distance, type: name includes 'ground' ? 'track_surface' : 'wall' }`;
* otherwise cast the edge probe straight down from
  `position + direction·1.5 + (0, 2, 0)` with `far = 5`; if that too finds
  no boundary-named intersection, synthesise the `track_edge` record at
  `position + direction·0.5` with distance `0.5`; else return `null`. -/
def checkBoundaryCollision (position velocity : Vec3) (scene : Scene)
    (lookAheadDistance : ℝ := 2.0) : Option HitRecord :=
  if velocity.length < 0.1 then none
  else
    let direction := velocity.normalize
    let origin : Vec3 := { position with y := position.y + 0.5 }
    let intersects := scene.raycast origin direction lookAheadDistance
    let collisionIntersects := intersects.filter fun h => isCollisionName h.objName
    match collisionIntersects with
    | hit :: _ =>
        some { hit := true
               point := hit.point
               normal := hit.faceNormal.getD direction.neg
               distance := hit.distance
               type := if strIncludes hit.objName "ground" then "track_surface" else "wall" }
    | [] =>
        let edgeCheckOrigin : Vec3 :=
          let p := position.add (direction.smul 1.5)
          { p with y := p.y + 2.0 }
        let edgeIntersects := scene.raycast edgeCheckOrigin ⟨0, -1, 0⟩ 5.0
        let collisionAhead := edgeIntersects.filter fun h => isCollisionName h.objName
        match collisionAhead with
        | [] =>
            some { hit := true
                   point := position.add (direction.smul 0.5)
                   normal := direction.neg
                   distance := 0.5
                   type := "track_edge" }
        | _ :: _ => none

/-- The record `calculateBounceResponse` returns:
`{ velocity, force, direction }`. -/
structure BounceResponse where
  velocity : Vec3
  force : ℝ
  direction : Vec3

/-- `calculateBounceResponse(hitPoint, hitNormal, velocity, bounceStrength)`
of the source (identical in both module variants): reflect `velocity`
about `hitNormal`, scale by `bounceStrength`; if the result's length is
below the minimum bounce speed `2.0`, normalise it and rescale to exactly
`2.0`; return the velocity together with its length as `force` and its
normalised copy as `direction`.  The `hitPoint` argument is accepted but
never read. -/
def calculateBounceResponse (hitPoint hitNormal velocity : Vec3)
    (bounceStrength : ℝ := 0.8) : BounceResponse :=
  let reflected := (velocity.reflect hitNormal).smul bounceStrength
  let reflectedVelocity :=
    if reflected.length < 2.0 then reflected.normalize.smul 2.0 else reflected
  { velocity := reflectedVelocity
    force := reflectedVelocity.length
    direction := reflectedVelocity.normalize }

/-- `isPositionOnTrack(position, scene, maxDistance)` of
`src/unnamed/part_001`: cast straight down from `position + (0, 2, 0)`
with `far = maxDistance + 2.0`, filter to boundary-named intersections;
if one exists, answer whether `|position.y − hit.point.y| ≤ maxDistance`
for the first such hit; else `false`. -/
def isPositionOnTrack (position : Vec3) (scene : Scene)
    (maxDistance : ℝ := 3.0) : Bool :=
  let checkOrigin : Vec3 := { position with y := position.y + 2.0 }
  let intersects := scene.raycast checkOrigin ⟨0, -1, 0⟩ (maxDistance + 2.0)
  let collisionHits := intersects.filter fun h => isCollisionName h.objName
  match collisionHits with
  | hit :: _ => if |position.y - hit.point.y| ≤ maxDistance then true else false
  | [] => false

/-- `checkMultiDirectionalCollision(position, velocity, scene)` of the
source: probe `checkBoundaryCollision` on the normalised velocity and on
its rotations by `+π/4` and `−π/4` about the vertical axis — in that
order, each rescaled to the original velocity's magnitude — collect the
non-`null` results paired with their direction index, and return the
first one (`collisions[0]`), or `null` when there is none. -/
def checkMultiDirectionalCollision (position velocity : Vec3) (scene : Scene) :
    Option (HitRecord × ℕ) :=
  let d0 := velocity.normalize
  let d1 := velocity.normalize.applyAxisAngleY (Real.pi / 4)
  let d2 := velocity.normalize.applyAxisAngleY (-(Real.pi / 4))
  let collisions :=
    ([(d0, 0), (d1, 1), (d2, 2)] : List (Vec3 × ℕ)).filterMap fun p =>
      (checkBoundaryCollision position (p.1.smul velocity.length) scene).map
        fun c => (c, p.2)
  collisions.head?

/-- The per-wheel state the Ground Contact Resolver reads and writes:
`wheel.current.position.y` and `wheel.current.isOnDirt`. -/
structure WheelState where
  posY : ℝ
  isOnDirt : Bool

/-- `getGroundPosition(wheelBase, wheel, ...)` as defined inline in
`src/src/models/__tests__/Kart.test.js`: cast straight down from the
wheel mount's world position with `far = 3`, first-hit-only.  On a hit,
set the wheel's vertical position to `hit.point.y + 0.3`, set `isOnDirt`
to whether the hit object's name is exactly `"ground dirt"` and the hit
point's `y` is below `0.5`, and return the new height.  On no hit, set
`isOnDirt := false`, leave the height unchanged and return it.  The
result is the updated wheel state paired with the returned height. -/
def getGroundPosition (wheelBaseWorldPos : Vec3) (wheel : WheelState)
    (scene : Scene) : WheelState × ℝ :=
  let intersects := scene.raycast wheelBaseWorldPos ⟨0, -1, 0⟩ 3
  match intersects with
  | hit :: _ =>
      let safeY := hit.point.y + 0.3
      if hit.objName = "ground dirt" ∧ hit.point.y < 0.5 then
        ({ posY := safeY, isOnDirt := true }, safeY)
      else
        ({ posY := safeY, isOnDirt := false }, safeY)
  | [] => ({ wheel with isOnDirt := false }, wheel.posY)

/-- A scene whose ray query never reports an intersection: no objects at
all, hence in particular no boundary-named ones. -/
def emptyScene : Scene :=
  ⟨fun _ _ _ => []⟩

/-- A scene whose ray query always reports a single wall one unit away,
with a face normal. -/
def wallScene : Scene :=
  ⟨fun _ _ _ => [⟨⟨0, 0, -1⟩, 1, some ⟨0, 0, 1⟩, "wall"⟩]⟩

/-- A scene whose ray query always reports a single low `"ground dirt"`
surface. -/
def dirtScene : Scene :=
  ⟨fun _ _ _ => [⟨⟨0, 0.2, 0⟩, 4.8, none, "ground dirt"⟩]⟩

/-- A scene whose ray query always reports a single low surface whose
name strictly contains `"ground dirt"`. -/
def dirtVariantScene : Scene :=
  ⟨fun _ _ _ => [⟨⟨0, 0.2, 0⟩, 4.8, none, "ground dirt zone"⟩]⟩

/-! ### Helper lemmas about the vector operations -/

theorem Vec3.smul_smul (v : Vec3) (s t : ℝ) :
    (v.smul s).smul t = v.smul (s * t) := by
  simp [Vec3.smul, mul_assoc]

theorem Vec3.smul_one (v : Vec3) : v.smul 1 = v := by
  simp [Vec3.smul]

theorem Vec3.length_nonneg (v : Vec3) : 0 ≤ v.length :=
  Real.sqrt_nonneg _

theorem Vec3.length_smul (v : Vec3) (s : ℝ) :
    (v.smul s).length = |s| * v.length := by
  unfold Vec3.length Vec3.smul Vec3.dot
  have h : v.x * s * (v.x * s) + v.y * s * (v.y * s) + v.z * s * (v.z * s) =
      s ^ 2 * (v.x * v.x + v.y * v.y + v.z * v.z) := by ring
  rw [h, Real.sqrt_mul (sq_nonneg s), Real.sqrt_sq_eq_abs]

theorem Vec3.normalize_of_length_ne_zero (u : Vec3) (h : u.length ≠ 0) :
    u.normalize = u.smul (1 / u.length) := by
  unfold Vec3.normalize
  rw [if_neg h]

theorem Vec3.length_normalize (v : Vec3) (h : v.length ≠ 0) :
    v.normalize.length = 1 := by
  rw [Vec3.normalize_of_length_ne_zero v h, Vec3.length_smul,
    abs_of_nonneg (one_div_nonneg.mpr v.length_nonneg), one_div,
    inv_mul_cancel₀ h]

/-- Evaluation helper: the square root of a number exhibited as a square. -/
theorem sqrt_eval {a b : ℝ} (hb : 0 ≤ b) (h : a = b ^ 2) :
    Real.sqrt a = b := by
  rw [h, Real.sqrt_sq hb]

/-- Evaluation helper: the zero vector has length `0`. -/
theorem length_zero_vec : Vec3.length ⟨0, 0, 0⟩ = 0 := by
  unfold Vec3.length Vec3.dot
  exact sqrt_eval le_rfl (by norm_num)

/-- Evaluation helper: the vector `(0, 0, −1)` has length `1`. -/
theorem length_unit_negz : Vec3.length ⟨0, 0, -1⟩ = 1 := by
  unfold Vec3.length Vec3.dot
  exact sqrt_eval (by norm_num) (by norm_num)

/-! ### The claims -/

/-- C8: for every position, scene and look-ahead distance, a velocity of
magnitude below `0.1` makes `checkBoundaryCollision` return `none`,
regardless of the scene contents. -/
theorem checkBoundaryCollision_slow_none
    (position velocity : Vec3) (scene : Scene) (lookAheadDistance : ℝ)
    (hspeed : velocity.length < 0.1) :
    checkBoundaryCollision position velocity scene lookAheadDistance = none := by
  unfold checkBoundaryCollision
  rw [if_pos hspeed]

theorem checkBoundaryCollision_slow_none_witness :
    Vec3.length ⟨0, 0, 0⟩ < 0.1 ∧
    checkBoundaryCollision ⟨0, 0, 0⟩ ⟨0, 0, 0⟩ wallScene 2.0 = none := by
  have hlen : Vec3.length ⟨0, 0, 0⟩ < 0.1 := by rw [length_zero_vec]; norm_num
  exact ⟨hlen, checkBoundaryCollision_slow_none _ _ _ _ hlen⟩

/-- C10: `calculateBounceResponse` never reads its `hitPoint` argument —
the bounce response is identical at any two hit points when the normal,
velocity and strength agree. -/
theorem calculateBounceResponse_hitPoint_independent
    (p1 p2 hitNormal velocity : Vec3) (bounceStrength : ℝ) :
    calculateBounceResponse p1 hitNormal velocity bounceStrength =
      calculateBounceResponse p2 hitNormal velocity bounceStrength := rfl

/-- C1: when the velocity's magnitude is at least `0.1` and the nearest
intersection of the look-ahead ray — cast from `position + (0, 0.5, 0)`
along `normalize(velocity)` — is on an object whose name contains
`"ground"`, `"wall"`, `"barrier"` or `"block"`, `checkBoundaryCollision`
returns the record whose point is that hit's point, whose distance is that
hit's distance, whose normal is the face normal when supplied and the
negated probe direction otherwise, and whose type is `"track_surface"`
when the name contains `"ground"` and `"wall"` otherwise. -/
theorem checkBoundaryCollision_boundary_hit
    (position velocity : Vec3) (scene : Scene) (lookAheadDistance : ℝ)
    (h0 : Intersection) (rest : List Intersection)
    (hspeed : 0.1 ≤ velocity.length)
    (hray : scene.raycast { position with y := position.y + 0.5 }
        velocity.normalize lookAheadDistance = h0 :: rest)
    (hname : isCollisionName h0.objName = true) :
    checkBoundaryCollision position velocity scene lookAheadDistance =
      some { hit := true
             point := h0.point
             normal := h0.faceNormal.getD velocity.normalize.neg
             distance := h0.distance
             type := if strIncludes h0.objName "ground" then "track_surface"
                     else "wall" } := by
  unfold checkBoundaryCollision
  rw [if_neg (not_lt.mpr hspeed)]
  simp only [hray, List.filter_cons, hname, if_true]

theorem checkBoundaryCollision_boundary_hit_witness :
    0.1 ≤ Vec3.length ⟨0, 0, -1⟩ ∧
    isCollisionName "wall" = true ∧
    checkBoundaryCollision ⟨0, 0, 0⟩ ⟨0, 0, -1⟩ wallScene 2.0 =
      some { hit := true
             point := ⟨0, 0, -1⟩
             normal := (Option.getD (some ⟨0, 0, 1⟩)
               (Vec3.neg (Vec3.normalize ⟨0, 0, -1⟩)))
             distance := 1
             type := if strIncludes "wall" "ground" then "track_surface"
                     else "wall" } := by
  have hlen : (0.1 : ℝ) ≤ Vec3.length ⟨0, 0, -1⟩ := by
    rw [length_unit_negz]; norm_num
  refine ⟨hlen, by decide, ?_⟩
  exact checkBoundaryCollision_boundary_hit ⟨0, 0, 0⟩ ⟨0, 0, -1⟩ wallScene 2.0
    ⟨⟨0, 0, -1⟩, 1, some ⟨0, 0, 1⟩, "wall"⟩ [] hlen rfl (by decide)

/-- Evaluation helper: the vector `(0, 0, −1/20)` has length `1/20`. -/
theorem length_small_negz : Vec3.length ⟨0, 0, -(1 / 20)⟩ = 1 / 20 := by
  unfold Vec3.length Vec3.dot
  exact sqrt_eval (by norm_num) (by norm_num)

/-- C2 counterexample: the velocity `(0, 0, −1/20)` has nonzero magnitude,
yet in the empty scene (which has no boundary-named objects — its ray
query reports nothing at all) `checkBoundaryCollision` returns `none`,
not a `track_edge` record: the claim forgot the `< 0.1` degenerate-speed
cutoff. -/
theorem checkBoundaryCollision_track_edge_cex :
    Vec3.length ⟨0, 0, -(1 / 20)⟩ ≠ 0 ∧
    checkBoundaryCollision ⟨0, 0, 0⟩ ⟨0, 0, -(1 / 20)⟩ emptyScene 2.0 = none := by
  constructor
  · rw [length_small_negz]; norm_num
  · unfold checkBoundaryCollision
    rw [if_pos (by rw [length_small_negz]; norm_num)]

/-- C2 (amended: magnitude at least `0.1` instead of merely nonzero): in a
scene none of whose reported intersections carry a boundary name,
`checkBoundaryCollision` with a velocity of magnitude at least `0.1`
returns the synthesised `track_edge` record at distance exactly `0.5`,
with point `position + normalize(velocity)·0.5` and normal the negated
normalized velocity. -/
theorem checkBoundaryCollision_track_edge
    (position velocity : Vec3) (scene : Scene) (lookAheadDistance : ℝ)
    (hspeed : 0.1 ≤ velocity.length)
    (hclean : ∀ o d f, ∀ i ∈ scene.raycast o d f,
      isCollisionName i.objName = false) :
    checkBoundaryCollision position velocity scene lookAheadDistance =
      some { hit := true
             point := position.add (velocity.normalize.smul 0.5)
             normal := velocity.normalize.neg
             distance := 0.5
             type := "track_edge" } := by
  unfold checkBoundaryCollision
  rw [if_neg (not_lt.mpr hspeed)]
  have hfAll : ∀ o d f, List.filter (fun h => isCollisionName h.objName)
      (scene.raycast o d f) = [] := by
    intro o d f
    rw [List.filter_eq_nil_iff]
    intro a ha
    simp [hclean o d f a ha]
  simp only [hfAll]

theorem checkBoundaryCollision_track_edge_witness :
    0.1 ≤ Vec3.length ⟨0, 0, -1⟩ ∧
    checkBoundaryCollision ⟨0, 0, 0⟩ ⟨0, 0, -1⟩ emptyScene 2.0 =
      some { hit := true
             point := Vec3.add ⟨0, 0, 0⟩ ((Vec3.normalize ⟨0, 0, -1⟩).smul 0.5)
             normal := (Vec3.normalize ⟨0, 0, -1⟩).neg
             distance := 0.5
             type := "track_edge" } := by
  have hlen : (0.1 : ℝ) ≤ Vec3.length ⟨0, 0, -1⟩ := by
    rw [length_unit_negz]; norm_num
  exact ⟨hlen, checkBoundaryCollision_track_edge ⟨0, 0, 0⟩ ⟨0, 0, -1⟩
    emptyScene 2.0 hlen (fun o d f i hi => absurd hi (List.not_mem_nil i))⟩

/-- Evaluation helper: reflecting the zero velocity and scaling gives the
zero vector. -/
theorem reflect_zero_smul :
    (Vec3.reflect ⟨0, 0, 0⟩ ⟨0, 0, 1⟩).smul 0.8 = (⟨0, 0, 0⟩ : Vec3) := by
  simp [Vec3.reflect, Vec3.sub, Vec3.smul, Vec3.dot]

/-- C3 counterexample: the zero input velocity reflects and scales to the
zero vector, whose magnitude `0` is below `2.0`; the returned velocity is
then the zero vector again — its magnitude is `0`, not `2.0`: the minimum
bounce speed cannot be enforced on a zero reflection, which the claim's
hypothesis fails to exclude. -/
theorem calculateBounceResponse_min_cex :
    ((Vec3.reflect ⟨0, 0, 0⟩ ⟨0, 0, 1⟩).smul 0.8).length < 2.0 ∧
    (calculateBounceResponse ⟨0, 0, 0⟩ ⟨0, 0, 1⟩ ⟨0, 0, 0⟩ 0.8).velocity.length
      ≠ 2.0 := by
  have hnz : Vec3.normalize ⟨0, 0, 0⟩ = (⟨0, 0, 0⟩ : Vec3) := by
    unfold Vec3.normalize
    rw [length_zero_vec, if_pos rfl]
    simp [Vec3.smul]
  constructor
  · rw [reflect_zero_smul, length_zero_vec]; norm_num
  · simp only [calculateBounceResponse, reflect_zero_smul]
    rw [if_pos (by rw [length_zero_vec]; norm_num)]
    rw [hnz, Vec3.length_smul, length_zero_vec]
    norm_num

/-- C3 (amended: the reflected-and-scaled velocity must in addition be
nonzero — have positive magnitude — for the minimum to be enforceable):
whenever the reflected velocity scaled by the bounce strength has
magnitude strictly between `0` and `2.0`, the returned velocity is the
normalized reflected vector rescaled to the minimum bounce speed: its
magnitude is exactly `2.0` and its direction is the normalized reflected
vector. -/
theorem calculateBounceResponse_min_boost
    (hitPoint hitNormal velocity : Vec3) (bounceStrength : ℝ)
    (hpos : 0 < ((velocity.reflect hitNormal).smul bounceStrength).length)
    (hlt : ((velocity.reflect hitNormal).smul bounceStrength).length < 2.0) :
    (calculateBounceResponse hitPoint hitNormal velocity bounceStrength).velocity =
      ((velocity.reflect hitNormal).smul bounceStrength).normalize.smul 2.0 ∧
    (calculateBounceResponse hitPoint hitNormal velocity bounceStrength).velocity.length
      = 2.0 ∧
    (calculateBounceResponse hitPoint hitNormal velocity bounceStrength).velocity.normalize
      = ((velocity.reflect hitNormal).smul bounceStrength).normalize := by
  have hr0 : ((velocity.reflect hitNormal).smul bounceStrength).length ≠ 0 :=
    ne_of_gt hpos
  have hvel : (calculateBounceResponse hitPoint hitNormal velocity
      bounceStrength).velocity =
      ((velocity.reflect hitNormal).smul bounceStrength).normalize.smul 2.0 := by
    simp only [calculateBounceResponse]
    rw [if_pos hlt]
  have hlen : (((velocity.reflect hitNormal).smul
      bounceStrength).normalize.smul 2.0).length = 2.0 := by
    rw [Vec3.length_smul, Vec3.length_normalize _ hr0, mul_one]
    norm_num
  refine ⟨hvel, by rw [hvel, hlen], ?_⟩
  rw [hvel, Vec3.normalize_of_length_ne_zero _ (by rw [hlen]; norm_num), hlen,
    Vec3.smul_smul, show (2.0 : ℝ) * (1 / 2.0) = 1 by norm_num, Vec3.smul_one]

/-- Evaluation helper: the reflected-and-scaled test velocity of the C3
witness. -/
theorem reflect_unit_smul :
    (Vec3.reflect ⟨0, 0, -1⟩ ⟨0, 0, 1⟩).smul 0.8 = (⟨0, 0, 0.8⟩ : Vec3) := by
  simp [Vec3.reflect, Vec3.sub, Vec3.smul, Vec3.dot]
  norm_num

/-- Evaluation helper: the vector `(0, 0, 0.8)` has length `0.8`. -/
theorem length_of_08 : Vec3.length ⟨0, 0, 0.8⟩ = 0.8 := by
  unfold Vec3.length Vec3.dot
  exact sqrt_eval (by norm_num) (by norm_num)

theorem calculateBounceResponse_min_boost_witness :
    0 < ((Vec3.reflect ⟨0, 0, -1⟩ ⟨0, 0, 1⟩).smul 0.8).length ∧
    ((Vec3.reflect ⟨0, 0, -1⟩ ⟨0, 0, 1⟩).smul 0.8).length < 2.0 ∧
    (calculateBounceResponse ⟨0, 0, 0⟩ ⟨0, 0, 1⟩ ⟨0, 0, -1⟩ 0.8).velocity =
      ((Vec3.reflect ⟨0, 0, -1⟩ ⟨0, 0, 1⟩).smul 0.8).normalize.smul 2.0 := by
  have h1 : 0 < ((Vec3.reflect ⟨0, 0, -1⟩ ⟨0, 0, 1⟩).smul 0.8).length := by
    rw [reflect_unit_smul, length_of_08]; norm_num
  have h2 : ((Vec3.reflect ⟨0, 0, -1⟩ ⟨0, 0, 1⟩).smul 0.8).length < 2.0 := by
    rw [reflect_unit_smul, length_of_08]; norm_num
  exact ⟨h1, h2,
    (calculateBounceResponse_min_boost ⟨0, 0, 0⟩ ⟨0, 0, 1⟩ ⟨0, 0, -1⟩ 0.8 h1 h2).1⟩

/-- C7: for a unit hit normal and an input whose reflection
`v − 2(v·n)n`, scaled by the bounce strength, has magnitude at least the
minimum bounce speed `2.0`, `calculateBounceResponse` returns exactly
that reflected-and-scaled vector as `velocity`, its magnitude as `force`,
and its normalization as `direction` — the three fields mutually
consistent. -/
theorem calculateBounceResponse_reflection
    (hitPoint hitNormal velocity : Vec3) (bounceStrength : ℝ)
    (hunit : hitNormal.length = 1)
    (hge : 2.0 ≤ ((velocity.sub (hitNormal.smul
      (2 * velocity.dot hitNormal))).smul bounceStrength).length) :
    (calculateBounceResponse hitPoint hitNormal velocity bounceStrength).velocity =
      (velocity.sub (hitNormal.smul (2 * velocity.dot hitNormal))).smul
        bounceStrength ∧
    (calculateBounceResponse hitPoint hitNormal velocity bounceStrength).force =
      ((velocity.sub (hitNormal.smul (2 * velocity.dot hitNormal))).smul
        bounceStrength).length ∧
    (calculateBounceResponse hitPoint hitNormal velocity bounceStrength).direction =
      ((velocity.sub (hitNormal.smul (2 * velocity.dot hitNormal))).smul
        bounceStrength).normalize := by
  simp only [calculateBounceResponse, Vec3.reflect]
  rw [if_neg (not_lt.mpr hge)]
  exact ⟨rfl, rfl, rfl⟩

/-- Evaluation helper: the vector `(0, 0, 1)` has length `1`. -/
theorem length_unit_posz : Vec3.length ⟨0, 0, 1⟩ = 1 := by
  unfold Vec3.length Vec3.dot
  exact sqrt_eval (by norm_num) (by norm_num)

/-- Evaluation helper: the reflected-and-scaled test velocity of the C7
witness. -/
theorem reflect_fast_smul :
    (Vec3.sub ⟨0, 0, -10⟩ ((⟨0, 0, 1⟩ : Vec3).smul
      (2 * Vec3.dot ⟨0, 0, -10⟩ ⟨0, 0, 1⟩))).smul 0.8 = (⟨0, 0, 8⟩ : Vec3) := by
  simp [Vec3.sub, Vec3.smul, Vec3.dot]
  norm_num

/-- Evaluation helper: the vector `(0, 0, 8)` has length `8`. -/
theorem length_of_8 : Vec3.length ⟨0, 0, 8⟩ = 8 := by
  unfold Vec3.length Vec3.dot
  exact sqrt_eval (by norm_num) (by norm_num)

theorem calculateBounceResponse_reflection_witness :
    Vec3.length ⟨0, 0, 1⟩ = 1 ∧
    2.0 ≤ ((Vec3.sub ⟨0, 0, -10⟩ ((⟨0, 0, 1⟩ : Vec3).smul
      (2 * Vec3.dot ⟨0, 0, -10⟩ ⟨0, 0, 1⟩))).smul 0.8).length ∧
    (calculateBounceResponse ⟨0, 0, 0⟩ ⟨0, 0, 1⟩ ⟨0, 0, -10⟩ 0.8).velocity =
      (Vec3.sub ⟨0, 0, -10⟩ ((⟨0, 0, 1⟩ : Vec3).smul
        (2 * Vec3.dot ⟨0, 0, -10⟩ ⟨0, 0, 1⟩))).smul 0.8 := by
  have hge : (2.0 : ℝ) ≤ ((Vec3.sub ⟨0, 0, -10⟩ ((⟨0, 0, 1⟩ : Vec3).smul
      (2 * Vec3.dot ⟨0, 0, -10⟩ ⟨0, 0, 1⟩))).smul 0.8).length := by
    rw [reflect_fast_smul, length_of_8]; norm_num
  exact ⟨length_unit_posz, hge,
    (calculateBounceResponse_reflection ⟨0, 0, 0⟩ ⟨0, 0, 1⟩ ⟨0, 0, -10⟩ 0.8
      length_unit_posz hge).1⟩

/-- C4 counterexample: the name `"ground dirt zone"` contains
`"ground dirt"` and the hit point's `y = 0.2` is below the threshold
`0.5`, yet the resolver leaves `isOnDirt = false`: the source compares the
name with strict equality (`=== "ground dirt"`), not containment. -/
theorem getGroundPosition_dirt_cex :
    strIncludes "ground dirt zone" "ground dirt" = true ∧
    ((0.2 : ℝ) < 0.5) ∧
    (getGroundPosition ⟨0, 5, 0⟩ ⟨0, false⟩ dirtVariantScene).1.isOnDirt
      = false := by
  refine ⟨by decide, by norm_num, ?_⟩
  simp only [getGroundPosition, dirtVariantScene]
  rw [if_neg (fun hc => absurd hc.1 (by decide))]

/-- C4 (amended: the hit object's name must be exactly `"ground dirt"`,
not merely contain it): when the downward wheel ray's first hit is on an
object named exactly `"ground dirt"`, the resolver sets the wheel's
vertical position (and its returned height) to the hit point's `y` plus
`0.3`, and sets `isOnDirt` exactly when the hit point's `y` is below the
dirt threshold `0.5`. -/
theorem getGroundPosition_dirt
    (wheelBaseWorldPos : Vec3) (wheel : WheelState) (scene : Scene)
    (hit : Intersection) (rest : List Intersection)
    (hray : scene.raycast wheelBaseWorldPos ⟨0, -1, 0⟩ 3 = hit :: rest)
    (hname : hit.objName = "ground dirt") :
    (getGroundPosition wheelBaseWorldPos wheel scene).1.posY =
      hit.point.y + 0.3 ∧
    (getGroundPosition wheelBaseWorldPos wheel scene).2 = hit.point.y + 0.3 ∧
    ((getGroundPosition wheelBaseWorldPos wheel scene).1.isOnDirt = true ↔
      hit.point.y < 0.5) := by
  simp only [getGroundPosition, hray]
  by_cases hy : hit.point.y < 0.5
  · rw [if_pos ⟨hname, hy⟩]
    simp [hy]
  · rw [if_neg (fun hc => hy hc.2)]
    simp [hy]

theorem getGroundPosition_dirt_witness :
    (getGroundPosition ⟨0, 5, 0⟩ ⟨0, false⟩ dirtScene).1.posY = 0.2 + 0.3 ∧
    (getGroundPosition ⟨0, 5, 0⟩ ⟨0, false⟩ dirtScene).2 = 0.2 + 0.3 ∧
    ((getGroundPosition ⟨0, 5, 0⟩ ⟨0, false⟩ dirtScene).1.isOnDirt = true ↔
      (0.2 : ℝ) < 0.5) :=
  getGroundPosition_dirt ⟨0, 5, 0⟩ ⟨0, false⟩ dirtScene
    ⟨⟨0, 0.2, 0⟩, 4.8, none, "ground dirt"⟩ [] rfl rfl

/-- C9: when the downward wheel ray finds no intersection, the resolver
clears `isOnDirt`, leaves the wheel's vertical position unchanged, and
returns the prior height. -/
theorem getGroundPosition_no_hit
    (wheelBaseWorldPos : Vec3) (wheel : WheelState) (scene : Scene)
    (hray : scene.raycast wheelBaseWorldPos ⟨0, -1, 0⟩ 3 = []) :
    getGroundPosition wheelBaseWorldPos wheel scene =
      ({ wheel with isOnDirt := false }, wheel.posY) := by
  simp only [getGroundPosition, hray]

theorem getGroundPosition_no_hit_witness :
    getGroundPosition ⟨0, 5, 0⟩ ⟨7, true⟩ emptyScene = (⟨7, false⟩, 7) :=
  getGroundPosition_no_hit ⟨0, 5, 0⟩ ⟨7, true⟩ emptyScene rfl

/-- C5: the multi-directional probe equals the first non-`none` result of
probing `checkBoundaryCollision` on the forward direction, the forward
direction rotated `+45°` about the vertical axis, and the forward
direction rotated `−45°` — in that fixed order, each rescaled to the
original velocity's magnitude — annotated with direction index `0`, `1`
or `2`; and it is `none` exactly when all three probes are `none`. -/
theorem checkMultiDirectionalCollision_first_hit
    (position velocity : Vec3) (scene : Scene) :
    (checkMultiDirectionalCollision position velocity scene =
      match checkBoundaryCollision position
          (velocity.normalize.smul velocity.length) scene with
      | some c => some (c, 0)
      | none =>
        match checkBoundaryCollision position
            ((velocity.normalize.applyAxisAngleY (Real.pi / 4)).smul
              velocity.length) scene with
        | some c => some (c, 1)
        | none =>
          (checkBoundaryCollision position
              ((velocity.normalize.applyAxisAngleY (-(Real.pi / 4))).smul
                velocity.length) scene).map fun c => (c, 2)) ∧
    (checkMultiDirectionalCollision position velocity scene = none ↔
      checkBoundaryCollision position
        (velocity.normalize.smul velocity.length) scene = none ∧
      checkBoundaryCollision position
        ((velocity.normalize.applyAxisAngleY (Real.pi / 4)).smul
          velocity.length) scene = none ∧
      checkBoundaryCollision position
        ((velocity.normalize.applyAxisAngleY (-(Real.pi / 4))).smul
          velocity.length) scene = none) := by
  cases h0 : checkBoundaryCollision position
      (velocity.normalize.smul velocity.length) scene with
  | some c0 => simp [checkMultiDirectionalCollision, h0]
  | none =>
    cases h1 : checkBoundaryCollision position
        ((velocity.normalize.applyAxisAngleY (Real.pi / 4)).smul
          velocity.length) scene with
    | some c1 => simp [checkMultiDirectionalCollision, h0, h1]
    | none =>
      cases h2 : checkBoundaryCollision position
          ((velocity.normalize.applyAxisAngleY (-(Real.pi / 4))).smul
            velocity.length) scene with
      | some c2 => simp [checkMultiDirectionalCollision, h0, h1, h2]
      | none => simp [checkMultiDirectionalCollision, h0, h1, h2]

/-- C6: `isPositionOnTrack` answers `true` exactly when the downward ray
from `position + (0, 2, 0)` with maximum distance `maxDistance + 2.0`
yields a boundary-classified hit (the first such) whose point is within
`maxDistance` of `position.y` vertically — the comparison is `≤`, so the
boundary case at exactly `maxDistance` counts as on-track, and with no
boundary-classified hit the answer is `false`. -/
theorem isPositionOnTrack_iff (position : Vec3) (scene : Scene)
    (maxDistance : ℝ) :
    isPositionOnTrack position scene maxDistance = true ↔
      ∃ hit, (List.filter (fun h => isCollisionName h.objName)
          (scene.raycast { position with y := position.y + 2.0 } ⟨0, -1, 0⟩
            (maxDistance + 2.0))).head? = some hit ∧
        |position.y - hit.point.y| ≤ maxDistance := by
  unfold isPositionOnTrack
  cases hfl : List.filter (fun h => isCollisionName h.objName)
      (scene.raycast { position with y := position.y + 2.0 } ⟨0, -1, 0⟩
        (maxDistance + 2.0)) with
  | nil => simp [hfl]
  | cons hit rest =>
    by_cases hd : |position.y - hit.point.y| ≤ maxDistance
    · simp [hfl, hd]
    · simp [hfl, hd]

end

end MarioKart
